import Mathlib

/-!
Shallow embedding of the mellea-qai demo scripts.

The repository is four standalone Python scripts gluing together the external
mellea LLM library: demo.py (write_email), demo_2.py, demo_agent.py (a ReACT
loop with a small tool framework) and demo_mcp.py (an MCP tool and resource).
All external-library behaviour (chat and instruct responses, sampling results)
is an input of the embedded functions; the embedding captures exactly the
control flow, parsing and data plumbing that the repository itself performs.
-/

/-- A JSON value, modelling the payloads that the pydantic method
model_validate_json and the Python function json.loads operate on in
demo_agent.py.  Chat response contents that the scripts parse as JSON are
modelled directly as JSON values; the textual serialisation layer is part of
the external library. -/
inductive Json where
  | null
  | bool (b : Bool)
  | num (n : Int)
  | str (s : String)
  | arr (elems : List Json)
  | obj (fields : List (String × Json))

/-- Look up a field of a JSON object, as pydantic does for a required field.
Returns none when the value is not an object or the field is absent. -/
def Json.getField (j : Json) (key : String) : Option Json :=
  match j with
  | .obj fields => (fields.find? (fun kv => kv.1 == key)).map (fun kv => kv.2)
  | _ => none

/-- The Python exceptions that the demo scripts can raise or let propagate. -/
inductive PyErr where
  | validationError (msg : String)
  | typeError (msg : String)
  | attributeError (msg : String)
  | indexError
deriving DecidableEq

/-- A chat message as appended to the session context in demo_agent.py by
Message(role=..., content=...). -/
structure Msg where
  role : String
  content : String
deriving DecidableEq

/-- ReactTool from demo_agent.py.  The Python field fn : Callable is modelled
by its observable parts: the parameter names read via inspect.signature, the
implementation itself (taking the keyword arguments as JSON object fields),
the function name and the lines of the docstring. -/
structure ReactTool where
  fnParams : List String
  fnImpl : List (String × Json) → String
  fnName : String
  fnDoc : List String
  name : Option String
  description : Option String

/-- get_name: the explicit name when given, otherwise the function name. -/
def ReactTool.get_name (t : ReactTool) : String :=
  match t.name with
  | none => t.fnName
  | some n => n

/-- get_description: the explicit description when given, otherwise the first
line of the docstring. -/
def ReactTool.get_description (t : ReactTool) : String :=
  match t.description with
  | none => t.fnDoc.headD ""
  | some d => d

/-- ReactToolbox from demo_agent.py: a list of tools. -/
structure ReactToolbox where
  tools : List ReactTool

/-- tool_names: the names of the tools, in order. -/
def ReactToolbox.tool_names (tb : ReactToolbox) : List String :=
  tb.tools.map (fun t => t.get_name)

/-- get_tool_from_name: linear search by get_name, none when absent. -/
def ReactToolbox.get_tool_from_name (tb : ReactToolbox) (name : String) :
    Option ReactTool :=
  tb.tools.find? (fun t => t.get_name == name)

/-- call_tool: json.loads the argument payload and call fn(**kwargs).  The
double-star call requires the payload to be a JSON object whose keys are
exactly the parameter names of fn (no defaults, no extras); otherwise Python
raises a TypeError. -/
def ReactToolbox.call_tool (tb : ReactToolbox) (t : ReactTool)
    (kwargsJson : Json) : Except PyErr String :=
  match kwargsJson with
  | .obj fields =>
      let keys := fields.map (fun kv => kv.1)
      if keys.all (fun k => t.fnParams.contains k)
          && t.fnParams.all (fun p => keys.contains p) then
        .ok (t.fnImpl fields)
      else
        .error (.typeError "unexpected or missing keyword argument")
  | _ => .error (.typeError "argument after ** must be a mapping")

/-- Validation against tool_name_schema(), i.e. what the pydantic call
ToolSelectionSchema.model_validate_json does to a tool-selection payload: it
must be a JSON object whose required field tool is a string equal to one of
the registered tool names (the Literal of tool_names()). -/
def ReactToolbox.tool_name_schema_validate (tb : ReactToolbox)
    (content : Json) : Except PyErr String :=
  match content.getField "tool" with
  | some (.str n) =>
      if n ∈ tb.tool_names then .ok n
      else .error (.validationError "input should be one of the tool names")
  | some _ => .error (.validationError "input should be a valid string")
  | none => .error (.validationError "field required: tool")

/-- get_tool_from_schema: validate the payload against the tool-name schema,
then look the validated name up with get_tool_from_name. -/
def ReactToolbox.get_tool_from_schema (tb : ReactToolbox) (content : Json) :
    Except PyErr (Option ReactTool) :=
  match tb.tool_name_schema_validate content with
  | .error e => .error e
  | .ok n => .ok (tb.get_tool_from_name n)

/-- IsDoneModel.model_validate_json: the payload must be a JSON object whose
required field is_done is a boolean. -/
def IsDoneModel_validate (content : Json) : Except PyErr Bool :=
  match content.getField "is_done" with
  | some (.bool b) => .ok b
  | some _ => .error (.validationError "input should be a valid boolean")
  | none => .error (.validationError "field required: is_done")

/-- The rendering of react_system_template: the fixed preamble, today, and one
bullet per tool with its name and description. -/
def react_system_template (today : String) (tools : List ReactTool) : String :=
  "Answer the user\x27s question as best you can.\n\nToday is" ++ today ++
    " and you can use the following tool names with associated descriptions:\n"
    ++ String.join
      (tools.map (fun tool => " * " ++ tool.get_name ++ ": " ++
        tool.get_description))

/-- The model responses consumed by one turn of the ReACT loop, in the order
in which the four chat requests of the turn are issued: the thought, the tool
selection, the tool arguments, and the done check. -/
structure TurnResponses where
  thought : String
  act : Json
  actArgs : Json
  isDone : Json

/-- The observable operations that react performs, in program order. -/
inductive Event where
  | buildSysPrompt
  | addSystemMsg (content : String)
  | addUserMsg (content : String)
  | chatThought (response : String)
  | chatAction (response : Json)
  | chatArgs (response : Json)
  | toolCall (toolName : String) (output : String)
  | addToolMsg (output : String)
  | chatDoneCheck (response : Json)
  | chatFinal (response : String)

/-- How a run of react ends: the failed entry assertion, a propagated Python
exception, the returned final answer, or still looping after consuming every
supplied turn response. -/
inductive Outcome where
  | assertionError
  | pyError (e : PyErr)
  | answer (content : String)
  | running
deriving DecidableEq

/-- One iteration of the while loop of react: the thought chat, the action
chat followed by get_tool_from_schema (an AttributeError when the lookup gave
none, since the code then calls get_name on it), the argument chat, call_tool
with the tool-message append, and the done-check chat followed by
IsDoneModel_validate.  Returns the events performed and either the propagated
exception or the parsed is_done flag. -/
def reactTurn (tb : ReactToolbox) (r : TurnResponses) :
    List Event × Except PyErr Bool :=
  match tb.get_tool_from_schema r.act with
  | .error e => ([.chatThought r.thought, .chatAction r.act], .error e)
  | .ok none =>
      ([.chatThought r.thought, .chatAction r.act],
        .error (.attributeError "NoneType object has no attribute get_name"))
  | .ok (some t) =>
      match tb.call_tool t r.actArgs with
      | .error e =>
          ([.chatThought r.thought, .chatAction r.act, .chatArgs r.actArgs],
            .error e)
      | .ok output =>
          match IsDoneModel_validate r.isDone with
          | .error e =>
              ([.chatThought r.thought, .chatAction r.act,
                .chatArgs r.actArgs, .toolCall t.get_name output,
                .addToolMsg output, .chatDoneCheck r.isDone], .error e)
          | .ok b =>
              ([.chatThought r.thought, .chatAction r.act,
                .chatArgs r.actArgs, .toolCall t.get_name output,
                .addToolMsg output, .chatDoneCheck r.isDone], .ok b)

/-- The while-not-done loop of react, driven by the list of per-turn model
responses (the fuel of the run): a parsed false flag continues the loop, a
parsed true flag issues the final summarising chat (whose content is
finalResp) and returns it, an exception propagates, and exhausting the
supplied responses leaves the loop still running. -/
def reactLoop (tb : ReactToolbox) (finalResp : String) :
    List TurnResponses → List Event × Outcome
  | [] => ([], .running)
  | r :: rest =>
      match reactTurn tb r with
      | (evs, .error e) => (evs, .pyError e)
      | (evs, .ok true) => (evs ++ [.chatFinal finalResp], .answer finalResp)
      | (evs, .ok false) =>
          let tail := reactLoop tb finalResp rest
          (evs ++ tail.1, tail.2)

/-- react from demo_agent.py.  view is the value of the session method
view_for_generation on entry; the entry assertion requires it to be an empty
list.  After the assertion, the system prompt is rendered once and the system
and user messages are appended, then the loop runs.  goal and today feed the
prompts; rs are the per-turn model responses and finalResp the content of the
final summarising chat. -/
def react (view : Option (List Msg)) (tb : ReactToolbox)
    (goal : String) (today : String) (rs : List TurnResponses)
    (finalResp : String) : List Event × Outcome :=
  match view with
  | some [] =>
      let tail := reactLoop tb finalResp rs
      (.buildSysPrompt ::
        .addSystemMsg (react_system_template today tb.tools) ::
        .addUserMsg goal :: tail.1, tail.2)
  | _ => ([], .assertionError)

/-- The number of loop turns recorded in a trace: one thought chat opens every
turn, so turns are counted by chatThought events. -/
def traceTurns (evs : List Event) : Nat :=
  evs.countP (fun e => match e with | .chatThought _ => true | _ => false)

/-- The events of one successful turn for selected tool t and tool output
output, exactly in the order the loop body performs them. -/
def goodTurnEvents (t : ReactTool) (r : TurnResponses) (output : String) :
    List Event :=
  [.chatThought r.thought, .chatAction r.act, .chatArgs r.actArgs,
   .toolCall t.get_name output, .addToolMsg output, .chatDoneCheck r.isDone]

/-- One entry of sampling_results in demo.py, restricted to the field the
script reads. -/
structure SamplingEntry where
  value : String
deriving DecidableEq

/-- The sampling result returned by instruct with return_sampling_results in
demo.py, restricted to the fields the script reads: success, the string
rendering of result, and the entries of sampling_results. -/
structure InstructResult where
  success : Bool
  result : String
  sampling_results : List SamplingEntry
deriving DecidableEq

/-- The fallback line printed by write_email on failure. -/
def fallbackMsg : String :=
  "Expect sub-par output due to failure to meet requirements."

/-- write_email from demo.py, as a function of the sampling result the library
returns: on success it returns the string rendering of the result and prints
nothing; otherwise it prints the fallback line and returns the value of the
first entry of sampling_results (an IndexError when that list is empty).  The
first component collects the printed lines. -/
def write_email (r : InstructResult) : Except PyErr (List String × String) :=
  if r.success then .ok ([], r.result)
  else
    match r.sampling_results with
    | e :: _ => .ok ([fallbackMsg], e.value)
    | [] => .error .indexError

/-- A call into the external mellea library, as made by demo_mcp.py. -/
inductive LibCall where
  | startSession (maxNewTokens : Int)
  | instruct (prompt : String) (loopBudget : Nat)
deriving DecidableEq

/-- Python str.split with the single-space separator: split on every single
space character, keeping empty fields.  Structural worker over the character
list. -/
def pySplitSpaceAux : List Char → List Char → List String
  | [], acc => [String.mk acc.reverse]
  | c :: cs, acc =>
      if c = ' ' then String.mk acc.reverse :: pySplitSpaceAux cs []
      else pySplitSpaceAux cs (c :: acc)

/-- Python x.split with a single-space separator string. -/
def pySplitSpace (s : String) : List String :=
  pySplitSpaceAux s.toList []

/-- The validation lambda of wl_req inside write_a_poem in demo_mcp.py:
the number of fields of x.split with a single-space separator must be
strictly below word_limit. -/
def write_a_poem_validation_fn (word_limit : Int) (x : String) : Bool :=
  decide (((pySplitSpace x).length : Int) < word_limit)

/-- write_a_poem from demo_mcp.py, as a function of the word limit and of the
result of the instruct call of the library (the string rendering of the value
of the returned thunk, or the propagated library exception): the library
calls made, and the returned string or propagated error.  The session is
created with MAX_NEW_TOKENS set to word_limit + 10 and instruct is called
with the poem prompt under a rejection-sampling strategy with loop budget
2. -/
def write_a_poem (word_limit : Int) (res : Except PyErr String) :
    List LibCall × Except PyErr String :=
  ([.startSession (word_limit + 10), .instruct "Write a poem" 2], res)

/-- get_greeting from demo_mcp.py: the library calls made (none) and the
greeting string built from the name. -/
def get_greeting (name : String) : List LibCall × String :=
  ([], "Hello, " ++ name ++ "!")

/-- The weather string returned by weather_lookup_fn in demo_agent.py. -/
def weatherString : String :=
  "The weather in Thornton, NH is sunny with a high of 78 and a low of 52. Scattered showers are possible in the afternoon."

/-- zip_lookup_tool from the main block of demo_agent.py. -/
def zip_lookup_tool : ReactTool :=
  { fnParams := ["city"]
    fnImpl := fun _ => "03285"
    fnName := "zip_lookup_tool_fn"
    fnDoc := ["Returns the ZIP code for the city."]
    name := some "Zip Code Lookup"
    description := some "Returns the ZIP code given a town name." }

/-- weather_lookup_tool from the main block of demo_agent.py. -/
def weather_lookup_tool : ReactTool :=
  { fnParams := ["zip_code"]
    fnImpl := fun _ => weatherString
    fnName := "weather_lookup_fn"
    fnDoc := ["Looks up the weather for a town given a five-digit zip code."]
    name := some "Get the weather"
    description := some "Returns the weather given a ZIP code." }

/-- The toolbox built in the main block of demo_agent.py. -/
def demo_toolbox : ReactToolbox :=
  { tools := [zip_lookup_tool, weather_lookup_tool] }

/-- A well-formed turn whose done check parses to false. -/
def falseTurn : TurnResponses :=
  { thought := "I should look up the ZIP code first."
    act := .obj [("tool", .str "Zip Code Lookup")]
    actArgs := .obj [("city", .str "Thornton, NH")]
    isDone := .obj [("is_done", .bool false)] }

/-- A well-formed turn whose done check parses to true. -/
def trueTurn : TurnResponses :=
  { thought := "I can now look up the weather and answer."
    act := .obj [("tool", .str "Get the weather")]
    actArgs := .obj [("zip_code", .str "03285")]
    isDone := .obj [("is_done", .bool true)] }

/-- A turn whose tool selection names no registered tool, so that the
pydantic validation raises. -/
def badSelectionTurn : TurnResponses :=
  { thought := "I will use a tool."
    act := .obj [("tool", .str "Launch the rocket")]
    actArgs := .obj []
    isDone := .obj [("is_done", .bool false)] }

/-- Lookup by name succeeds on every name in the image of get_name, and the
found tool bears that name. -/
theorem find_tool_of_mem (tools : List ReactTool) (n : String)
    (h : n ∈ tools.map (fun t => ReactTool.get_name t)) :
    ∃ t, tools.find? (fun t => t.get_name == n) = some t ∧ t.get_name = n := by
  induction tools with
  | nil => simp at h
  | cons hd tl ih =>
      by_cases hh : hd.get_name = n
      · exact ⟨hd, List.find?_cons_of_pos _ (by simp [hh]), hh⟩
      · have h2 : n ∈ tl.map (fun t => ReactTool.get_name t) := by
          simp only [List.map_cons, List.mem_cons] at h
          rcases h with h | h
          · exact absurd h.symm hh
          · exact h
        obtain ⟨t, hf, hn⟩ := ih h2
        refine ⟨t, ?_, hn⟩
        rw [List.find?_cons_of_neg _ (by simp [hh])]
        exact hf

/-- A successful tool-name validation always yields a registered name. -/
theorem tool_name_schema_validate_mem (tb : ReactToolbox) (content : Json)
    (n : String) (h : tb.tool_name_schema_validate content = .ok n) :
    n ∈ tb.tool_names := by
  unfold ReactToolbox.tool_name_schema_validate at h
  split at h
  · split at h
    · rename_i s hs hmem
      injection h with h2
      subst h2
      exact hmem
    · simp at h
  · simp at h
  · simp at h

/-- Unfolding of the loop over turns that all parse is_done false: the loop
is still running and the trace is the concatenation of the turn traces. -/
theorem reactLoop_all_false (tb : ReactToolbox) (finalResp : String)
    (rs : List TurnResponses)
    (h : ∀ r ∈ rs, (reactTurn tb r).2 = .ok false) :
    reactLoop tb finalResp rs =
      ((rs.map (fun r => (reactTurn tb r).1)).flatten, .running) := by
  induction rs with
  | nil => rfl
  | cons r rest ih =>
      have hr : (reactTurn tb r).2 = .ok false := h r (List.mem_cons_self r rest)
      have hrest := ih (fun x hx => h x (List.mem_cons_of_mem r hx))
      rcases hE : reactTurn tb r with ⟨evs, res⟩
      rw [hE] at hr
      simp only at hr
      subst hr
      simp [reactLoop, hE, hrest]

/-- An answer outcome of the loop forces the answer to be the final chat
content, and some executed turn to have parsed is_done true. -/
theorem reactLoop_answer (tb : ReactToolbox) (finalResp : String)
    (rs : List TurnResponses) (a : String)
    (h : (reactLoop tb finalResp rs).2 = .answer a) :
    a = finalResp ∧ ∃ r ∈ rs, (reactTurn tb r).2 = .ok true := by
  induction rs with
  | nil => simp [reactLoop] at h
  | cons r rest ih =>
      rcases hE : reactTurn tb r with ⟨evs, res⟩
      cases res with
      | error e => simp [reactLoop, hE] at h
      | ok b =>
          cases b with
          | true =>
              simp only [reactLoop, hE] at h
              refine ⟨?_, r, List.mem_cons_self r rest, by rw [hE]⟩
              simpa using h.symm
          | false =>
              simp only [reactLoop, hE] at h
              obtain ⟨ha, t, ht, htt⟩ := ih h
              exact ⟨ha, t, List.mem_cons_of_mem r ht, htt⟩

/-- Every branch of a turn records exactly one thought chat. -/
theorem reactTurn_turns (tb : ReactToolbox) (r : TurnResponses) :
    traceTurns (reactTurn tb r).1 = 1 := by
  cases h1 : tb.get_tool_from_schema r.act with
  | error e => simp [reactTurn, h1, traceTurns]
  | ok o =>
      cases o with
      | none => simp [reactTurn, h1, traceTurns]
      | some t =>
          cases h2 : tb.call_tool t r.actArgs with
          | error e => simp [reactTurn, h1, h2, traceTurns]
          | ok output =>
              cases h3 : IsDoneModel_validate r.isDone with
              | error e => simp [reactTurn, h1, h2, h3, traceTurns]
              | ok b => simp [reactTurn, h1, h2, h3, traceTurns]

/-- Turn counting distributes over concatenation of traces. -/
theorem traceTurns_append (a b : List Event) :
    traceTurns (a ++ b) = traceTurns a + traceTurns b := by
  simp [traceTurns]

/-- The concatenated traces of a list of turns count one turn per entry. -/
theorem turns_flatten (tb : ReactToolbox) (rs : List TurnResponses) :
    traceTurns ((rs.map (fun r => (reactTurn tb r).1)).flatten) = rs.length := by
  induction rs with
  | nil => rfl
  | cons r rest ih =>
      simp only [List.map_cons, List.flatten_cons]
      rw [traceTurns_append, reactTurn_turns, ih, List.length_cons]
      omega

/-- A turn whose three parses succeed performs exactly the five operations of
the loop body, in order, and reports the parsed flag. -/
theorem reactTurn_good (tb : ReactToolbox) (r : TurnResponses)
    (t : ReactTool) (output : String) (b : Bool)
    (h1 : tb.get_tool_from_schema r.act = .ok (some t))
    (h2 : tb.call_tool t r.actArgs = .ok output)
    (h3 : IsDoneModel_validate r.isDone = .ok b) :
    reactTurn tb r = (goodTurnEvents t r output, .ok b) := by
  simp [reactTurn, h1, h2, h3, goodTurnEvents]

/-- Unfolding of the loop over false turns followed by one true turn: every
turn trace appears in order and the run returns the final chat content. -/
theorem reactLoop_done_last (tb : ReactToolbox) (finalResp : String)
    (fs : List TurnResponses) (t : TurnResponses)
    (hfs : ∀ r ∈ fs, (reactTurn tb r).2 = .ok false)
    (ht : (reactTurn tb t).2 = .ok true) :
    reactLoop tb finalResp (fs ++ [t]) =
      ((fs.map (fun r => (reactTurn tb r).1)).flatten ++
          ((reactTurn tb t).1 ++ [.chatFinal finalResp]),
        .answer finalResp) := by
  induction fs with
  | nil =>
      rcases hE : reactTurn tb t with ⟨evs, res⟩
      rw [hE] at ht
      simp only at ht
      subst ht
      simp [reactLoop, hE]
  | cons r rest ih =>
      have hr : (reactTurn tb r).2 = .ok false :=
        hfs r (List.mem_cons_self r rest)
      have hrest := ih (fun x hx => hfs x (List.mem_cons_of_mem r hx))
      rcases hE : reactTurn tb r with ⟨evs, res⟩
      rw [hE] at hr
      simp only at hr
      subst hr
      simp [reactLoop, hE, hrest]

/-- The loop never produces the entry assertion error. -/
theorem reactLoop_ne_assert (tb : ReactToolbox) (finalResp : String)
    (rs : List TurnResponses) :
    (reactLoop tb finalResp rs).2 ≠ .assertionError := by
  induction rs with
  | nil => simp [reactLoop]
  | cons r rest ih =>
      rcases hE : reactTurn tb r with ⟨evs, res⟩
      cases res with
      | error e => simp [reactLoop, hE]
      | ok b =>
          cases b with
          | true => simp [reactLoop, hE]
          | false =>
              simp only [reactLoop, hE]
              exact ih

/-- A run fed n copies of a well-formed not-done turn executes exactly n
turns and is still looping. -/
theorem react_replicate_turns (goal today finalResp : String) (n : Nat) :
    traceTurns
      (react (some []) demo_toolbox goal today
        (List.replicate n falseTurn) finalResp).1 = n := by
  have hall : ∀ r ∈ List.replicate n falseTurn,
      (reactTurn demo_toolbox r).2 = .ok false := by
    intro r hr
    have hrr : r = falseTurn := List.eq_of_mem_replicate hr
    subst hrr
    rfl
  have hf := turns_flatten demo_toolbox (List.replicate n falseTurn)
  simp only [react]
  rw [reactLoop_all_false _ _ _ hall]
  simp only [traceTurns, List.countP_cons] at hf ⊢
  simpa using hf

/-- C1: the ReACT loop exits with an answer only when a done check parsed
true.  When every supplied turn parses is_done false the loop is still
running after exactly one turn per supplied response, so no turn or
iteration limit is enforced; and whenever the run returns an answer, the
returned content is the content of the one final summarising chat and some
executed turn parsed is_done true. -/
theorem react_exits_only_on_done (tb : ReactToolbox) (finalResp : String)
    (rs : List TurnResponses) (a : String) :
    ((∀ r ∈ rs, (reactTurn tb r).2 = .ok false) →
        (reactLoop tb finalResp rs).2 = .running ∧
          traceTurns (reactLoop tb finalResp rs).1 = rs.length)
    ∧ ((reactLoop tb finalResp rs).2 = .answer a →
        a = finalResp ∧ ∃ r ∈ rs, (reactTurn tb r).2 = .ok true) := by
  constructor
  · intro h
    rw [reactLoop_all_false tb finalResp rs h]
    exact ⟨rfl, turns_flatten tb rs⟩
  · exact reactLoop_answer tb finalResp rs a

/-- Witness for C1 at the demo toolbox: a single not-done turn leaves the
loop running after one turn, and a done turn returns the final chat
content. -/
theorem react_exits_only_on_done_witness :
    ((reactLoop demo_toolbox "final answer" [falseTurn]).2 = .running ∧
        traceTurns (reactLoop demo_toolbox "final answer" [falseTurn]).1 =
          [falseTurn].length)
    ∧ ("final answer" = "final answer" ∧
        ∃ r ∈ [trueTurn], (reactTurn demo_toolbox r).2 = .ok true) := by
  constructor
  · refine (react_exits_only_on_done demo_toolbox "final answer" [falseTurn]
      "unused").1 ?_
    intro r hr
    have hrr : r = falseTurn := by simpa using hr
    subst hrr
    rfl
  · exact (react_exits_only_on_done demo_toolbox "final answer" [trueTurn]
      "final answer").2 rfl

/-- C2 fails: no fixed constant bounds the number of turns the loop executes
across all sequences of model responses: n well-formed not-done responses
drive n turns. -/
theorem react_no_fixed_turn_bound :
    ¬ ∃ N : Nat, ∀ rs : List TurnResponses,
        traceTurns
          (react (some []) demo_toolbox "What is the high temperature?"
            "2026-10-12" rs "final").1 ≤ N := by
  rintro ⟨N, hN⟩
  have h1 := hN (List.replicate (N + 1) falseTurn)
  have h2 := react_replicate_turns "What is the high temperature?"
    "2026-10-12" "final" (N + 1)
  omega

/-- C2 amended: the loop has no fixed iteration bound: for every N some
sequence of model responses drives the loop through more than N turns; the
loop is capped only by the parsed done flag. -/
theorem react_turns_unbounded (N : Nat) :
    ∃ rs : List TurnResponses,
      N < traceTurns
        (react (some []) demo_toolbox "What is the high temperature?"
          "2026-10-12" rs "final").1 := by
  refine ⟨List.replicate (N + 1) falseTurn, ?_⟩
  rw [react_replicate_turns]
  omega

/-- C3: with well-formed responses whose last done check parses true, react
builds the system prompt once, appends the system and user messages, and then
every turn performs exactly, in order: the thought chat, the action chat
selecting a tool, the argument chat, the call of the selected tool with its
output appended as a tool message, and the done-check chat; the run ends with
the single final chat. -/
theorem react_turn_structure (tb : ReactToolbox)
    (goal today finalResp : String) (fs : List TurnResponses)
    (t : TurnResponses) (sel : TurnResponses → ReactTool)
    (out : TurnResponses → String)
    (hgood : ∀ r ∈ fs ++ [t],
        tb.get_tool_from_schema r.act = .ok (some (sel r)) ∧
          tb.call_tool (sel r) r.actArgs = .ok (out r))
    (hfalse : ∀ r ∈ fs, IsDoneModel_validate r.isDone = .ok false)
    (htrue : IsDoneModel_validate t.isDone = .ok true) :
    react (some []) tb goal today (fs ++ [t]) finalResp =
      (.buildSysPrompt ::
        .addSystemMsg (react_system_template today tb.tools) ::
        .addUserMsg goal ::
        (((fs ++ [t]).map (fun r => goodTurnEvents (sel r) r (out r))).flatten
          ++ [.chatFinal finalResp]),
        .answer finalResp) := by
  have hturn : ∀ r ∈ fs,
      reactTurn tb r = (goodTurnEvents (sel r) r (out r), .ok false) := by
    intro r hr
    obtain ⟨ha, hb⟩ := hgood r (List.mem_append_left _ hr)
    exact reactTurn_good tb r (sel r) (out r) false ha hb (hfalse r hr)
  have htr : reactTurn tb t = (goodTurnEvents (sel t) t (out t), .ok true) := by
    obtain ⟨ha, hb⟩ := hgood t (List.mem_append_right _ (by simp))
    exact reactTurn_good tb t (sel t) (out t) true ha hb htrue
  have hloop := reactLoop_done_last tb finalResp fs t
    (fun r hr => by rw [hturn r hr]) (by rw [htr])
  have hmap : fs.map (fun r => (reactTurn tb r).1) =
      fs.map (fun r => goodTurnEvents (sel r) r (out r)) :=
    List.map_congr_left (fun r hr => by rw [hturn r hr])
  simp only [react]
  rw [hloop, hmap, htr]
  simp [List.map_append, List.flatten_append, List.append_assoc]

/-- Witness for C3: a concrete two-turn run of the demo toolbox produces
exactly the expected event trace and returns the final answer. -/
theorem react_turn_structure_witness :
    react (some []) demo_toolbox
      "What is the high temperature in Thornton, NH?" "2026-10-12"
      [falseTurn, trueTurn] "The high is 78." =
      (.buildSysPrompt ::
        .addSystemMsg (react_system_template "2026-10-12" demo_toolbox.tools) ::
        .addUserMsg "What is the high temperature in Thornton, NH?" ::
        (goodTurnEvents zip_lookup_tool falseTurn "03285" ++
          (goodTurnEvents weather_lookup_tool trueTurn weatherString ++
            [.chatFinal "The high is 78."])),
        .answer "The high is 78.") := by
  have h := react_turn_structure demo_toolbox
    "What is the high temperature in Thornton, NH?" "2026-10-12"
    "The high is 78." [falseTurn] trueTurn
    (fun r => if r.thought = falseTurn.thought then zip_lookup_tool
      else weather_lookup_tool)
    (fun r => if r.thought = falseTurn.thought then "03285" else weatherString)
    ?hgood ?hfalse ?htrue
  case hgood =>
    intro r hr
    simp only [List.mem_append, List.mem_singleton] at hr
    rcases hr with rfl | rfl
    · exact ⟨rfl, rfl⟩
    · exact ⟨rfl, rfl⟩
  case hfalse =>
    intro r hr
    have hrr : r = falseTurn := by simpa using hr
    subst hrr
    rfl
  case htrue => rfl
  exact h.trans (by rfl)

/-- C4: write_email returns the string rendering of the result exactly when
the success flag is set; otherwise it prints the fallback line and returns
the value of the first sampling entry.  No other script recovers from a
library failure: write_a_poem propagates an instruct error unchanged and the
ReACT loop propagates a failing turn as an uncaught exception. -/
theorem write_email_success_flag (r : InstructResult) :
    (r.success = true → write_email r = .ok ([], r.result))
    ∧ (∀ e rest, r.success = false → r.sampling_results = e :: rest →
        write_email r = .ok ([fallbackMsg], e.value))
    ∧ (∀ (wl : Int) (err : PyErr),
        (write_a_poem wl (.error err)).2 = .error err)
    ∧ (∀ (tb : ReactToolbox) (finalResp : String) (x : TurnResponses)
        (rest : List TurnResponses) (err : PyErr),
        (reactTurn tb x).2 = .error err →
          (reactLoop tb finalResp (x :: rest)).2 = .pyError err) := by
  refine ⟨?_, ?_, ?_, ?_⟩
  · intro h
    simp [write_email, h]
  · intro e rest h1 h2
    simp [write_email, h1, h2]
  · intro wl err
    rfl
  · intro tb finalResp x rest err h
    rcases hE : reactTurn tb x with ⟨evs, res⟩
    cases res with
    | error e2 =>
        have he : e2 = err := by
          rw [hE] at h
          simpa using h
        subst he
        simp [reactLoop, hE]
    | ok b =>
        rw [hE] at h
        simp at h

/-- Witness for C4: both branches of write_email at concrete sampling
results, a propagated instruct error, and a propagated tool-selection
validation error in the loop. -/
theorem write_email_success_flag_witness :
    write_email
        { success := true, result := "Dear Arush, thank you.",
          sampling_results := [] } = .ok ([], "Dear Arush, thank you.")
    ∧ write_email
        { success := false, result := "ignored",
          sampling_results := [{ value := "best draft" }] } =
        .ok ([fallbackMsg], "best draft")
    ∧ (write_a_poem 10 (.error (.validationError "model unavailable"))).2 =
        .error (.validationError "model unavailable")
    ∧ (reactLoop demo_toolbox "final" [badSelectionTurn]).2 =
        .pyError (.validationError "input should be one of the tool names") := by
  refine ⟨?_, ?_, ?_, ?_⟩
  · exact (write_email_success_flag _).1 rfl
  · exact (write_email_success_flag _).2.1 { value := "best draft" } [] rfl rfl
  · exact (write_email_success_flag
      { success := true, result := "", sampling_results := [] }).2.2.1 10
      (.validationError "model unavailable")
  · exact (write_email_success_flag
      { success := true, result := "", sampling_results := [] }).2.2.2
      demo_toolbox "final" badSelectionTurn []
      (.validationError "input should be one of the tool names") rfl

/-- C5 fails on the greeting resource: at the concrete name world the handler
makes no library call at all, so it does not delegate to the external LLM
library; the greeting string is built locally. -/
theorem get_greeting_no_delegation :
    (get_greeting "world").1 = ([] : List LibCall) ∧
      (get_greeting "world").2 = "Hello, world!" :=
  ⟨rfl, rfl⟩

/-- C5 amended: the MCP tool write_a_poem delegates to the external LLM
library (it starts a session with the derived token limit and issues the one
instruct call) and returns the resulting string; the MCP resource handler
get_greeting returns a string built locally with no library call. -/
theorem mcp_endpoints (word_limit : Int) (res : Except PyErr String)
    (name : String) :
    (write_a_poem word_limit res).1 =
        [.startSession (word_limit + 10), .instruct "Write a poem" 2]
    ∧ (write_a_poem word_limit res).2 = res
    ∧ (get_greeting name).1 = []
    ∧ (get_greeting name).2 = "Hello, " ++ name ++ "!" :=
  ⟨rfl, rfl, rfl, rfl⟩

/-- C6: get_tool_from_schema either propagates the validation error or
returns some tool of the toolbox whose get_name equals the validated tool
field; a payload that validates never yields none. -/
theorem get_tool_from_schema_total (tb : ReactToolbox) (content : Json)
    (r : Option ReactTool) (h : tb.get_tool_from_schema content = .ok r) :
    ∃ t, r = some t ∧ ∃ n, tb.tool_name_schema_validate content = .ok n ∧
      t.get_name = n := by
  unfold ReactToolbox.get_tool_from_schema at h
  split at h
  · simp at h
  · rename_i n hv
    injection h with h2
    have hmem := tool_name_schema_validate_mem tb content n hv
    obtain ⟨t, hf, hn⟩ := find_tool_of_mem tb.tools n
      (by simpa [ReactToolbox.tool_names] using hmem)
    refine ⟨t, ?_, n, hv, hn⟩
    rw [← h2]
    exact hf

/-- Witness for C6: the demo toolbox resolves a valid selection payload to
the zip lookup tool. -/
theorem get_tool_from_schema_total_witness :
    ∃ t, (some zip_lookup_tool : Option ReactTool) = some t ∧
      ∃ n, demo_toolbox.tool_name_schema_validate
          (.obj [("tool", .str "Zip Code Lookup")]) = .ok n ∧
        t.get_name = n :=
  get_tool_from_schema_total demo_toolbox
    (.obj [("tool", .str "Zip Code Lookup")]) (some zip_lookup_tool) rfl

/-- C7: the wl_req validation lambda accepts a candidate exactly when its
single-space split has strictly fewer fields than word_limit, so a candidate
of exactly word_limit words is rejected even though the requirement text
asks for word_limit words. -/
theorem write_a_poem_validation_boundary (word_limit : Int) (x : String) :
    (write_a_poem_validation_fn word_limit x = true ↔
        ((pySplitSpace x).length : Int) < word_limit)
    ∧ (((pySplitSpace x).length : Int) = word_limit →
        write_a_poem_validation_fn word_limit x = false) := by
  constructor
  · simp [write_a_poem_validation_fn]
  · intro h
    simp [write_a_poem_validation_fn, h]

/-- Witness for C7: a three-word candidate is rejected at word limit 3. -/
theorem write_a_poem_validation_boundary_witness :
    write_a_poem_validation_fn 3 "one two three" = false :=
  (write_a_poem_validation_boundary 3 "one two three").2 rfl

/-- C8: react requires a fresh context: whenever view_for_generation gave
none or a non-empty list it stops with the assertion error before issuing
any chat request (the trace is empty); with an empty list the assertion
passes, the run never produces the assertion error, and the trace starts
with the one-time prompt construction followed by the loop trace. -/
theorem react_fresh_context (view : Option (List Msg)) (tb : ReactToolbox)
    (goal today finalResp : String) (rs : List TurnResponses) :
    (view ≠ some [] →
        react view tb goal today rs finalResp = ([], .assertionError))
    ∧ (view = some [] →
        (react view tb goal today rs finalResp).2 ≠ .assertionError ∧
          (react view tb goal today rs finalResp).1 =
            .buildSysPrompt ::
              .addSystemMsg (react_system_template today tb.tools) ::
              .addUserMsg goal :: (reactLoop tb finalResp rs).1) := by
  constructor
  · intro h
    cases view with
    | none => rfl
    | some l =>
        cases l with
        | nil => exact absurd rfl h
        | cons m ms => rfl
  · intro h
    subst h
    refine ⟨?_, rfl⟩
    show (reactLoop tb finalResp rs).2 ≠ .assertionError
    exact reactLoop_ne_assert tb finalResp rs

/-- Witness for C8: a non-empty context view stops react with the assertion
error and an empty trace; the empty view passes the assertion. -/
theorem react_fresh_context_witness :
    (react (some [{ role := "user", content := "hi" }]) demo_toolbox
        "goal" "2026-10-12" [] "final" = ([], .assertionError))
    ∧ ((react (some []) demo_toolbox "goal" "2026-10-12" [] "final").2 ≠
          .assertionError ∧
        (react (some []) demo_toolbox "goal" "2026-10-12" [] "final").1 =
          .buildSysPrompt ::
            .addSystemMsg (react_system_template "2026-10-12"
              demo_toolbox.tools) ::
            .addUserMsg "goal" :: (reactLoop demo_toolbox "final" []).1) := by
  constructor
  · exact (react_fresh_context (some [{ role := "user", content := "hi" }])
      demo_toolbox "goal" "2026-10-12" "final" []).1 (by simp)
  · exact (react_fresh_context (some []) demo_toolbox "goal" "2026-10-12"
      "final" []).2 rfl

/-- C9: get_greeting is a pure handler: for every name it makes no library
call and returns exactly the Hello greeting around the name. -/
theorem get_greeting_pure (name : String) :
    get_greeting name = ([], "Hello, " ++ name ++ "!") :=
  rfl
